import Mathlib

/-!
Shallow embedding of `omniweb_visualizer.py` (Aurora-Odyssey).

The script reads an OMNI fixed-width `.lst` file into a table (`read_data`),
derives a per-row `DateTime` (pandas `to_datetime` with `errors='coerce'`),
and, when the table is non-empty, starts a Dash app whose callbacks filter by
(year, magnitude) (`update_graph`, lines 88-91), map the filtered rows to a
3D point cloud (lines 93-109), and echo a clicked point (`display_click_data`,
lines 126-130).

Modelling choices:
- Numeric cell values are rationals (ℚ); the four timestamp components
  (Year, Day, Hour, Minute) are integers, as pandas infers `int64` for them
  on a well-formed file.  The slider/filter magnitude bound is `WithTop ℚ`
  so that a bound of +infinity is expressible (floats are modelled as
  rationals extended with +∞; NaN is not modelled).
- The pandas calls `read_fwf` and `to_datetime(..., errors='coerce')` are
  external library calls; they are embedded as: a `ReadResult` that is either
  a failure (any exception raised while opening/reading/tokenizing, line 41)
  or the list of successfully tokenized rows, and a pure per-row ordinal-day
  timestamp parser `parseDateTime` returning `none` on an invalid composite.
- `.dt.strftime('%Y-%m-%d %H:%M')` yields a missing value (NaN), not a
  string, on a null (NaT) timestamp; the hover label is therefore an
  `Option String` that is `none` exactly when the row's DateTime is null.
- In `display_click_data` the f-string interpolates the already-rendered
  values recovered from the click event; the point's fields are modelled as
  the strings substituted into the template.
-/

namespace OmniWeb

/-- The 19 raw columns of a row, in the order of `column_names`
(source lines 16-23); the four timestamp components are integers, the
measurements are rationals. -/
structure RawRow where
  Year : Int
  Day : Int
  Hour : Int
  Minute : Int
  Field_Magnitude_Avg : ℚ
  BX : ℚ
  BY : ℚ
  BZ : ℚ
  Speed : ℚ
  Proton_Density : ℚ
  Proton_Temperature : ℚ
  Electric_Field : ℚ
  Plasma_Beta : ℚ
  Alfven_Mach_Number : ℚ
  AE_Index : ℚ
  AL_Index : ℚ
  AU_Index : ℚ
  SYM_D : ℚ
  SYM_H : ℚ
deriving DecidableEq

/-- The hard-coded column schema of `read_data` (source lines 16-23);
passed to `pd.read_fwf` as `names=`, so the file is read with no header
row. -/
def column_names : List String :=
  ["Year", "Day", "Hour", "Minute",
   "Field_Magnitude_Avg", "BX", "BY", "BZ",
   "Speed", "Proton_Density", "Proton_Temperature",
   "Electric_Field", "Plasma_Beta", "Alfven_Mach_Number",
   "AE_Index", "AL_Index", "AU_Index",
   "SYM_D", "SYM_H"]

/-- The raw numeric cells of a row, listed in the order of
`column_names`. -/
def rowFields (r : RawRow) : List ℚ :=
  [(r.Year : ℚ), (r.Day : ℚ), (r.Hour : ℚ), (r.Minute : ℚ),
   r.Field_Magnitude_Avg, r.BX, r.BY, r.BZ,
   r.Speed, r.Proton_Density, r.Proton_Temperature,
   r.Electric_Field, r.Plasma_Beta, r.Alfven_Mach_Number,
   r.AE_Index, r.AL_Index, r.AU_Index,
   r.SYM_D, r.SYM_H]

/-- A calendar timestamp to minute precision, the result of a successful
`pd.to_datetime` with format `%Y-%j-%H-%M` (source lines 31-35). -/
structure DateTime where
  year : Int
  month : Nat
  day : Nat
  hour : Nat
  minute : Nat
deriving DecidableEq

/-- Gregorian leap-year rule, as used by the datetime library underlying
`pd.to_datetime`. -/
def isLeapYear (y : Int) : Bool :=
  (y % 4 == 0 && y % 100 != 0) || (y % 400 == 0)

/-- Number of days of year `y`. -/
def daysInYear (y : Int) : Int :=
  if isLeapYear y then 366 else 365

/-- Month lengths, January first. -/
def monthLengths (leap : Bool) : List Nat :=
  [31, if leap then 29 else 28, 31, 30, 31, 30, 31, 31, 30, 31, 30, 31]

/-- Convert a 1-based ordinal day into a (month, day-of-month) pair by
walking the month lengths. -/
def splitOrdinal : List Nat → Nat → Nat → Nat × Nat
  | [], m, d => (m, d)
  | len :: rest, m, d => if d ≤ len then (m, d) else splitOrdinal rest (m + 1) (d - len)

/-- The per-row timestamp derivation of source lines 31-35:
`pd.to_datetime` of the string `Year-Day-Hour-Minute` with format
`%Y-%j-%H-%M` and `errors='coerce'`.  A composite is valid when the year is
in the library's representable range, the ordinal day is within the year,
and hour/minute are in range; an invalid composite coerces to a null
timestamp (`none`) instead of raising. -/
def parseDateTime (y d h mi : Int) : Option DateTime :=
  if 1 ≤ y ∧ y ≤ 9999 ∧ 1 ≤ d ∧ d ≤ daysInYear y ∧
      0 ≤ h ∧ h ≤ 23 ∧ 0 ≤ mi ∧ mi ≤ 59 then
    let md := splitOrdinal (monthLengths (isLeapYear y)) 1 d.toNat
    some ⟨y, md.1, md.2, h.toNat, mi.toNat⟩
  else
    none

/-- One row of the DataFrame returned by `read_data`: the 19 raw columns
plus the derived `DateTime` column (null on a failed composite). -/
structure Record extends RawRow where
  DateTime : Option OmniWeb.DateTime
deriving DecidableEq

/-- Adjoin the derived `DateTime` column to a raw row (source lines 31-35,
applied row-wise by `pd.to_datetime` over the joined string column). -/
def decodeRow (r : RawRow) : Record :=
  { r with DateTime := parseDateTime r.Year r.Day r.Hour r.Minute }

/-- Outcome of the `pd.read_fwf` call on the input path: either any
exception raised while opening/reading/tokenizing the file (caught at
source line 41), or the list of tokenized raw rows, one per input line. -/
inductive ReadResult where
  | failure (err : String)
  | success (rows : List RawRow)

/-- `read_data` (source lines 9-43): on a successful read, derive the
`DateTime` column row-wise and return the table; on any exception, return
an empty DataFrame (source line 43). -/
def read_data : ReadResult → List Record
  | .failure _ => []
  | .success rows => rows.map decodeRow

/-- The state the process reaches after loading: either the terminal
message of source line 54 with no dashboard, or a running dashboard over
the loaded dataset. -/
inductive ProcessState where
  | terminal (msg : String)
  | dashboard (storm_data : List Record)
deriving DecidableEq

/-- The module-level startup logic (source lines 50-57): load the data,
and start the Dash app only when the DataFrame is non-empty; an empty
DataFrame prints a terminal message instead. -/
def main_startup (input : ReadResult) : ProcessState :=
  let storm_data := read_data input
  if storm_data.isEmpty then
    .terminal "The DataFrame is empty. Please check the LST file format."
  else
    .dashboard storm_data

/-- The row mask of `update_graph` (source lines 90-91): Year equals the
selected year and Field_Magnitude_Avg is at most the selected magnitude.
The bound lives in `WithTop ℚ` so that +∞ is expressible. -/
def filtered_data (storm_data : List Record) (selected_year : Int)
    (selected_magnitude : WithTop ℚ) : List Record :=
  storm_data.filter fun r =>
    decide (r.Year = selected_year ∧
      (r.Field_Magnitude_Avg : WithTop ℚ) ≤ selected_magnitude)

/-- Left-pad the decimal rendering of `n` with zeros to width 2
(strftime `%m`, `%d`, `%H`, `%M`). -/
def pad2 (n : Nat) : String :=
  if n < 10 then "0" ++ toString n else toString n

/-- Left-pad the decimal rendering of `n` with zeros to width 4
(strftime `%Y`). -/
def pad4 (n : Nat) : String :=
  if n < 10 then "000" ++ toString n
  else if n < 100 then "00" ++ toString n
  else if n < 1000 then "0" ++ toString n
  else toString n

/-- strftime of a non-null timestamp with format `%Y-%m-%d %H:%M`
(source line 106). -/
def formatDateTime (t : DateTime) : String :=
  pad4 t.year.toNat ++ "-" ++ pad2 t.month ++ "-" ++ pad2 t.day ++ " " ++
    pad2 t.hour ++ ":" ++ pad2 t.minute

/-- One marker of the `Scatter3d` trace built in `update_graph`
(source lines 95-108): coordinates from BX/BY/BZ, marker color from
Field_Magnitude_Avg, hover text from the strftime of DateTime — which is
a missing value (`none`), not a string, when DateTime is null (NaT). -/
structure Point3D where
  x : ℚ
  y : ℚ
  z : ℚ
  color : ℚ
  text : Option String
deriving DecidableEq

/-- The per-record projection of `update_graph`'s trace construction
(source lines 96-107). -/
def recordToPoint (r : Record) : Point3D :=
  { x := r.BX, y := r.BY, z := r.BZ,
    color := r.Field_Magnitude_Avg,
    text := r.DateTime.map formatDateTime }

/-- The point cloud handed to the plotting engine: the column-wise data of
the `Scatter3d` trace (source lines 96-107), one point per filtered
record, in order. -/
def toPointCloud (records : List Record) : List Point3D :=
  records.map recordToPoint

/-- A clicked point as recovered from the click event
(`clickdata['points'][0]`, source line 128).  The fields hold the
rendered values that the f-string of line 129 substitutes. -/
structure ClickPoint where
  text : String
  x : String
  y : String
  z : String
deriving DecidableEq

/-- `display_click_data` (source lines 126-130): echo the clicked point in
a fixed format, or a fixed placeholder when nothing has been clicked
(`clickdata` falsy). -/
def display_click_data : Option ClickPoint → String
  | some point =>
      "Clicked Point: DateTime: " ++ point.text ++ ", BX: " ++ point.x ++
        ", BY: " ++ point.y ++ ", BZ: " ++ point.z
  | none => "Click on a point to see details."

/-- A sample raw row whose timestamp composite is valid:
2024, ordinal day 131 (May 10 of the leap year 2024), 12:00. -/
def sampleRawValid : RawRow :=
  ⟨2024, 131, 12, 0, 5, 1, 2, 3, 400, 5, 100000, 1, 1, 5, 100, -50, 50, 10, -20⟩

/-- A sample raw row whose timestamp composite is invalid: ordinal day 400
is out of range for any year, so `pd.to_datetime` coerces it to NaT. -/
def sampleRawInvalid : RawRow :=
  ⟨2024, 400, 12, 0, 7, 4, 5, 6, 380, 4, 90000, 1, 1, 5, 80, -40, 40, 8, -15⟩

/-- C1: the filter of `update_graph` returns exactly the records whose
Year equals the selected year and whose Field_Magnitude_Avg is at most the
selected magnitude, as a subsequence of the dataset in its original order;
when no record matches, the result is the empty sequence and no error is
raised (the function is total). -/
theorem filter_exact (storm_data : List Record) (selected_year : Int)
    (selected_magnitude : WithTop ℚ) :
    (filtered_data storm_data selected_year selected_magnitude).Sublist storm_data ∧
    filtered_data storm_data selected_year selected_magnitude
      = storm_data.filter (fun r => decide (r.Year = selected_year ∧
          (r.Field_Magnitude_Avg : WithTop ℚ) ≤ selected_magnitude)) ∧
    (∀ r : Record, r ∈ filtered_data storm_data selected_year selected_magnitude ↔
      r ∈ storm_data ∧ r.Year = selected_year ∧
        (r.Field_Magnitude_Avg : WithTop ℚ) ≤ selected_magnitude) ∧
    ((∀ r ∈ storm_data, ¬(r.Year = selected_year ∧
        (r.Field_Magnitude_Avg : WithTop ℚ) ≤ selected_magnitude)) →
      filtered_data storm_data selected_year selected_magnitude = []) := by
  refine ⟨List.filter_sublist _, rfl, ?_, ?_⟩
  · intro r
    simp [filtered_data, List.mem_filter, and_assoc]
  · intro h
    rw [List.eq_nil_iff_forall_not_mem]
    intro r hr
    rw [filtered_data, List.mem_filter] at hr
    exact h r hr.1 (of_decide_eq_true hr.2)

/-- Closed instance of `filter_exact`: on a one-record dataset with no
record of year 1999, filtering for 1999 returns the empty sequence. -/
theorem filter_exact_witness :
    filtered_data [decodeRow sampleRawValid] 1999 ⊤ = [] :=
  (filter_exact [decodeRow sampleRawValid] 1999 ⊤).2.2.2 (by decide)

/-- C2: each row of the table returned by `read_data` on a successful read
derives its DateTime from that row's (Year, Day, Hour, Minute) alone
(so the null status of every other row is unaffected), an invalid
composite yields a null DateTime for that row while the row itself is
retained, and ingestion never drops or aborts on such a row (the output
has one record per input row). -/
theorem read_data_row_independent (rows : List RawRow) :
    (read_data (.success rows)).length = rows.length ∧
    (∀ i : Nat, ((read_data (.success rows))[i]?).map Record.DateTime
        = (rows[i]?).map fun row => parseDateTime row.Year row.Day row.Hour row.Minute) ∧
    (∀ i : Nat, ∀ row : RawRow, rows[i]? = some row →
      parseDateTime row.Year row.Day row.Hour row.Minute = none →
      ((read_data (.success rows))[i]?).map Record.DateTime = some none) := by
  refine ⟨by simp [read_data], ?_, ?_⟩
  · intro i
    cases h : rows[i]?
    · simp [read_data, h]
    · simp [read_data, h, decodeRow]
  · intro i row h hnone
    simp [read_data, decodeRow, h, hnone]

/-- Closed instance of `read_data_row_independent`: in a two-row input
whose second row has the out-of-range ordinal day 400, the second record
is retained with a null DateTime. -/
theorem read_data_row_independent_witness :
    ((read_data (.success [sampleRawValid, sampleRawInvalid]))[1]?).map Record.DateTime
      = some none :=
  (read_data_row_independent [sampleRawValid, sampleRawInvalid]).2.2 1
    sampleRawInvalid rfl (by decide)

/-- C3: any failure to open/read/tokenize the file yields the empty
DataFrame, the startup logic then surfaces the terminal message and never
starts the dashboard, and the dashboard is built exactly when the loaded
dataset is non-empty (over the dataset itself). -/
theorem startup_gate :
    (∀ err, read_data (.failure err) = []) ∧
    (∀ err, main_startup (.failure err)
        = .terminal "The DataFrame is empty. Please check the LST file format.") ∧
    (∀ input, read_data input = [] →
      main_startup input
        = .terminal "The DataFrame is empty. Please check the LST file format.") ∧
    (∀ input storm_data, main_startup input = .dashboard storm_data →
      storm_data = read_data input ∧ storm_data ≠ []) ∧
    (∀ input, read_data input ≠ [] →
      main_startup input = .dashboard (read_data input)) := by
  refine ⟨fun _ => rfl, fun _ => rfl, ?_, ?_, ?_⟩
  · intro input h
    simp [main_startup, h]
  · intro input storm_data h
    by_cases he : read_data input = []
    · simp [main_startup, he] at h
    · simp only [main_startup, List.isEmpty_iff, if_neg he,
        ProcessState.dashboard.injEq] at h
      exact ⟨h.symm, h ▸ he⟩
  · intro input he
    simp only [main_startup, List.isEmpty_iff, if_neg he]

/-- Closed instance of `startup_gate`: an unreadable file ends in the
terminal message; a readable one-row file starts the dashboard on its
record. -/
theorem startup_gate_witness :
    main_startup (.failure "file missing")
      = .terminal "The DataFrame is empty. Please check the LST file format." ∧
    main_startup (.success [sampleRawValid]) = .dashboard [decodeRow sampleRawValid] :=
  ⟨startup_gate.2.1 "file missing",
   startup_gate.2.2.2.2 (.success [sampleRawValid]) (by decide)⟩

/-- C4: on a valid (successfully tokenized) input, `read_data` returns one
record per input line: no line is dropped or merged. -/
theorem parse_length (rows : List RawRow) :
    (read_data (.success rows)).length = rows.length := by
  simp [read_data]

/-- C5 as stated is false: for a record whose DateTime is null, the hover
label produced by `update_graph` (strftime over NaT) is a missing value,
not the "unknown time" sentinel string the claim asserts. -/
theorem hover_label_counterexample :
    (toPointCloud [decodeRow sampleRawInvalid]).map Point3D.text = [none] ∧
    (toPointCloud [decodeRow sampleRawInvalid]).map Point3D.text
      ≠ [some "unknown time"] := by
  exact ⟨by decide, by decide⟩

/-- C5 amended: the hover label of every point is the strftime
`%Y-%m-%d %H:%M` of the record's DateTime when it is non-null, and is a
missing value (no string at all, not a sentinel) when the DateTime is
null. -/
theorem hover_label (records : List Record) (i : Nat) (r : Record)
    (hr : records[i]? = some r) :
    ((toPointCloud records)[i]?).map Point3D.text
      = some (r.DateTime.map formatDateTime) := by
  simp [toPointCloud, hr, recordToPoint]

/-- Closed instance of `hover_label`: the valid row of May 10 2024 12:00
gets the label "2024-05-10 12:00", the invalid row gets no label. -/
theorem hover_label_witness :
    ((toPointCloud [decodeRow sampleRawValid, decodeRow sampleRawInvalid])[0]?).map
        Point3D.text = some (some "2024-05-10 12:00") ∧
    ((toPointCloud [decodeRow sampleRawValid, decodeRow sampleRawInvalid])[1]?).map
        Point3D.text = some none := by
  constructor
  · rw [hover_label [decodeRow sampleRawValid, decodeRow sampleRawInvalid] 0
      (decodeRow sampleRawValid) rfl]
    decide
  · rw [hover_label [decodeRow sampleRawValid, decodeRow sampleRawInvalid] 1
      (decodeRow sampleRawInvalid) rfl]
    decide

/-- C6: `display_click_data` renders a clicked point exactly as
"Clicked Point: DateTime: [label], BX: [x], BY: [y], BZ: [z]" with the
literal field values substituted, returns exactly the fixed placeholder
when nothing has been clicked, and round-trips the spec's example
literally. -/
theorem display_click_spec :
    (∀ point : ClickPoint, display_click_data (some point)
        = "Clicked Point: DateTime: " ++ point.text ++ ", BX: " ++ point.x ++
            ", BY: " ++ point.y ++ ", BZ: " ++ point.z) ∧
    display_click_data none = "Click on a point to see details." ∧
    display_click_data (some ⟨"2024-05-10 12:00", "-3.2", "1.1", "4.0"⟩)
      = "Clicked Point: DateTime: 2024-05-10 12:00, BX: -3.2, BY: 1.1, BZ: 4.0" :=
  ⟨fun _ => rfl, rfl, by decide⟩

/-- C7: `toPointCloud` maps the empty input to the empty point cloud,
preserves length and order (the point at every index comes from the
record at that index), and colors every point by its record's
Field_Magnitude_Avg. -/
theorem toPointCloud_spec :
    toPointCloud [] = [] ∧
    (∀ records : List Record, (toPointCloud records).length = records.length) ∧
    (∀ (records : List Record) (i : Nat),
      (toPointCloud records)[i]? = (records[i]?).map recordToPoint) ∧
    (∀ (records : List Record) (i : Nat),
      ((toPointCloud records)[i]?).map Point3D.color
        = (records[i]?).map fun r => r.Field_Magnitude_Avg) := by
  refine ⟨rfl, fun records => by simp [toPointCloud], fun records i => by
    simp [toPointCloud], fun records i => ?_⟩
  cases h : records[i]? <;> simp [toPointCloud, h, recordToPoint]

/-- C8: with a magnitude bound of +∞ the filter of `update_graph` keeps
exactly the records of the selected year (the upper bound is non-binding
at infinity). -/
theorem filter_top_year (storm_data : List Record) (selected_year : Int)
    (_hy : ∃ r ∈ storm_data, r.Year = selected_year) :
    filtered_data storm_data selected_year ⊤
        = storm_data.filter (fun r => decide (r.Year = selected_year)) ∧
    (∀ r : Record, r ∈ filtered_data storm_data selected_year ⊤ ↔
      r ∈ storm_data ∧ r.Year = selected_year) := by
  have hcong : filtered_data storm_data selected_year ⊤
      = storm_data.filter (fun r => decide (r.Year = selected_year)) := by
    rw [filtered_data]
    refine List.filter_congr ?_
    intro r _
    rw [decide_eq_decide]
    simp [le_top]
  refine ⟨hcong, fun r => ?_⟩
  rw [hcong, List.mem_filter]
  simp

/-- Closed instance of `filter_top_year`: on a one-record dataset of year
2024, the year present, filtering at +∞ is the year-only filter. -/
theorem filter_top_year_witness :
    filtered_data [decodeRow sampleRawValid] 2024 ⊤
      = List.filter (fun r => decide (r.Year = 2024)) [decodeRow sampleRawValid] :=
  (filter_top_year [decodeRow sampleRawValid] 2024
    ⟨decodeRow sampleRawValid, by simp, rfl⟩).1

/-- C9 as stated is false: the fixed hard-coded schema assigns 19 raw
columns per line, not 18 — `column_names` has 19 entries. -/
theorem schema_count_counterexample :
    column_names.length = 19 ∧ column_names.length ≠ 18 := by
  exact ⟨by decide, by decide⟩

/-- C9 amended: the parser decodes each line into exactly the 19 raw
numeric fields of the fixed hard-coded schema, in the fixed order Year,
Day, Hour, Minute, Field_Magnitude_Avg, BX, BY, BZ, Speed,
Proton_Density, Proton_Temperature, Electric_Field, Plasma_Beta,
Alfven_Mach_Number, AE_Index, AL_Index, AU_Index, SYM_D, SYM_H, with no
header row (the first line is decoded as data like every other). -/
theorem schema_19_fields :
    column_names
      = ["Year", "Day", "Hour", "Minute",
         "Field_Magnitude_Avg", "BX", "BY", "BZ",
         "Speed", "Proton_Density", "Proton_Temperature",
         "Electric_Field", "Plasma_Beta", "Alfven_Mach_Number",
         "AE_Index", "AL_Index", "AU_Index",
         "SYM_D", "SYM_H"] ∧
    column_names.length = 19 ∧
    (∀ row : RawRow, (rowFields row).length = column_names.length) ∧
    (∀ rows : List RawRow, (read_data (.success rows))[0]? = (rows[0]?).map decodeRow) ∧
    (∀ rows : List RawRow, (read_data (.success rows)).length = rows.length) := by
  refine ⟨rfl, rfl, fun row => rfl, fun rows => by simp [read_data],
    fun rows => by simp [read_data]⟩

/-- C10: `read_data` is total — every read/decode failure is mapped to the
empty DataFrame rather than propagated — and a successfully parsed
zero-row file is indistinguishable at the interface from an unreadable
file: both yield the empty DataFrame and hence the same terminal
no-dashboard startup state. -/
theorem read_data_total_conflation :
    (∀ err, read_data (.failure err) = []) ∧
    read_data (.success []) = [] ∧
    (∀ err, read_data (.failure err) = read_data (.success [])) ∧
    (∀ err, main_startup (.failure err) = main_startup (.success [])) :=
  ⟨fun _ => rfl, rfl, fun _ => rfl, fun _ => rfl⟩

end OmniWeb
